import Mathlib

/-!
Verification development for `usb2sock.c`, the USB-to-TCP video bridge.

The embedding models the program's data and control flow directly from the
source:

* the client registry (`clientlist` / `clientlist_use`) is modelled at the
  byte level, because `close_client` manipulates it through `memmove` with a
  byte count; C `int` entries are four little-endian bytes (the target
  platforms, macOS on x86-64 and arm64, are little-endian with 4-byte int);
* socket and libusb calls are modelled by oracles: a list of per-call results
  consumed in program order;
* the error classification of the handshake and the streaming loop is
  modelled as pure functions of the libusb return code and transfer count.
-/

/-! ### Constants from the source and from libusb.h -/

def VENDOR_ID_DJI : Int := 0x2ca3

def DEVICE_ID_GOGGLES : Int := 0x001f

def WAIT_FOR_HOTPLUG : Int := 0xca0

def GOGGLES_WANT_CFG : Int := 1

def MAX_CLIENTS : Nat := 1024

def LIBUSB_ERROR_IO : Int := -1

def LIBUSB_ERROR_NO_DEVICE : Int := -4

def LIBUSB_ERROR_NOT_FOUND : Int := -5

def LIBUSB_ERROR_TIMEOUT : Int := -7

/-! ### Client registry, byte level

`int clientlist[1024]; unsigned clientlist_use;` — the array is a byte
store (address → byte), each entry occupying bytes `4*i .. 4*i+3`,
little-endian. -/

structure Registry where
  bytes : Nat → Nat
  use : Nat

def emptyReg : Registry := ⟨fun _ => 0, 0⟩

/-- Read entry `i` of `clientlist` as a 32-bit little-endian integer. -/
def readIdx (g : Registry) (i : Nat) : Nat :=
  g.bytes (4 * i) + 256 * g.bytes (4 * i + 1) +
    65536 * g.bytes (4 * i + 2) + 16777216 * g.bytes (4 * i + 3)

/-- Store value `v` as the 32-bit little-endian entry `k` of the byte store. -/
def writeIntLE (m : Nat → Nat) (k : Nat) (v : Nat) : Nat → Nat :=
  fun a =>
    if a = 4 * k then v % 256
    else if a = 4 * k + 1 then v / 256 % 256
    else if a = 4 * k + 2 then v / 65536 % 256
    else if a = 4 * k + 3 then v / 16777216 % 256
    else m a

/-- `memmove(dst, src, n)` on the byte store: bytes `dst .. dst+n-1` are
taken from the original bytes `src .. src+n-1`; everything else unchanged. -/
def memmoveBytes (m : Nat → Nat) (dst src n : Nat) : Nat → Nat :=
  fun a => if dst ≤ a ∧ a < dst + n then m (src + (a - dst)) else m a

/-- `clientlist[clientlist_use] = clientfd; clientlist_use++;`
(the registration step of `accept_any_connection`). -/
def pushClient (g : Registry) (fd : Nat) : Registry :=
  ⟨writeIntLE g.bytes g.use fd, g.use + 1⟩

/-- Build a registry holding the given socket handles, in order. -/
def mkReg (fds : List Nat) : Registry := fds.foldl pushClient emptyReg

/-- The registered socket handles, in index order. -/
def regList (g : Registry) : List Nat := (List.range g.use).map (readIdx g)

/-- `close_client(i)`: `close(clientlist[i]); clientlist_use--;
memmove(&clientlist[i], &clientlist[i+1], clientlist_use - i);`
The third argument of `memmove` is a count of **bytes**, exactly as in the
source (the source omits the `* sizeof(int)` factor). Entry `i` starts at
byte `4*i`, entry `i+1` at byte `4*(i+1)`. Returns the new registry and
the closed handle. -/
def close_client (g : Registry) (i : Nat) : Registry × Nat :=
  let fd := readIdx g i
  let use := g.use - 1
  (⟨memmoveBytes g.bytes (4 * i) (4 * (i + 1)) (use - i), use⟩, fd)

/-- What a correct shift-removal would produce on the handle list. -/
def removeAtSpec (l : List Nat) (i : Nat) : List Nat :=
  l.take i ++ l.drop (i + 1)

/-- Claim C1: removing index 0 from a registry holding handles
`[10, 20, 30]` must, per the claim, shift the survivors down to `[20, 30]`.
The code instead produces `[20, 20]`: `memmove` moves `clientlist_use - i`
bytes rather than that many `int` entries, so the entry holding handle 30
is dropped from the registry and handle 20 is duplicated. -/
theorem close_client_shifts_bytes_not_ints :
    regList (close_client (mkReg [10, 20, 30]) 0).1 = [20, 20] ∧
    removeAtSpec (regList (mkReg [10, 20, 30])) 0 = [20, 30] ∧
    regList (close_client (mkReg [10, 20, 30]) 0).1 ≠
      removeAtSpec (regList (mkReg [10, 20, 30])) 0 := by
  refine ⟨by decide, by decide, by decide⟩

/-! ### accept_any_connection

Oracle: either `accept` returned no connection (error / would-block), or it
returned a connection with given fd, together with whether the reported
address length was right and whether `fcntl(F_SETFL, O_NONBLOCK)` failed.
The result is the new registry plus the list of handles passed to
`close()` during the call. -/

inductive AcceptResult where
  | noConn : AcceptResult
  | conn (fd : Nat) (saddrlenOk : Bool) (fcntlFails : Bool) : AcceptResult

def accept_any_connection (g : Registry) (a : AcceptResult) : Registry × List Nat :=
  match a with
  | .noConn => (g, [])
  | .conn fd saddrlenOk fcntlFails =>
    if ¬saddrlenOk then (g, [])
    else if g.use ≥ MAX_CLIENTS then (g, [fd])
    else if fcntlFails then (pushClient g fd, [fd])
    else (pushClient g fd, [])

/-- Claim C3: when `fcntl(clientfd, F_SETFL, O_NONBLOCK)` fails, the code
closes `clientfd` — and then, lacking a `return`, falls through and stores
the closed handle in `clientlist`. Here an accepted connection with handle 5
is both closed (`close` log is `[5]`) and registered (entry 0 is 5), so the
handle will be closed a second time on registry removal or shutdown,
contradicting close-exactly-once. -/
theorem fcntl_failure_registers_closed_fd :
    (accept_any_connection emptyReg (.conn 5 true true)).2 = [5] ∧
    (accept_any_connection emptyReg (.conn 5 true true)).1.use = 1 ∧
    readIdx (accept_any_connection emptyReg (.conn 5 true true)).1 0 = 5 := by
  refine ⟨by decide, by decide, by decide⟩

/-! ### recv_and_discard

Oracle: the sequence of `read` results, in call order. `wb` is
`EWOULDBLOCK`/`EAGAIN`, `errFatal` any other negative return, `got n` a
read of `n` bytes (`got 0` = peer closed its socket). The result is the new
registry and the handles passed to `close()`. -/

inductive ReadRes where
  | wb : ReadRes
  | errFatal : ReadRes
  | got (n : Nat) : ReadRes

def recv_go : Registry → Nat → List ReadRes → Registry × List Nat
  | g, _, [] => (g, [])
  | g, i, rr :: rest =>
    if i < g.use then
      match rr with
      | .wb => recv_go g (i + 1) rest
      | .errFatal =>
        let c := close_client g i
        let r := recv_go c.1 i rest
        (r.1, c.2 :: r.2)
      | .got 0 =>
        let c := close_client g i
        let r := recv_go c.1 i rest
        (r.1, c.2 :: r.2)
      | .got (_ + 1) => recv_go g i rest
    else (g, [])

def recv_and_discard (g : Registry) (oracle : List ReadRes) : Registry × List Nat :=
  recv_go g 0 oracle

/-- Claim C6: registry `[5, 6, 7]`; peer 5 has closed its socket (read
returns 0), every later read would-block. The code closes 5, but the
corrupted shift in `close_client` leaves the registry `[6, 6]`: the drain
then visits handle 6 twice and never visits peer 7, which disappears from
the registry without being closed — so a peer can be skipped, another
revisited, contradicting visit-each-exactly-once. -/
theorem drain_after_removal_skips_peer :
    regList (recv_and_discard (mkReg [5, 6, 7]) [.got 0, .wb, .wb, .wb]).1 = [6, 6] ∧
    (recv_and_discard (mkReg [5, 6, 7]) [.got 0, .wb, .wb, .wb]).2 = [5] ∧
    7 ∉ regList (recv_and_discard (mkReg [5, 6, 7]) [.got 0, .wb, .wb, .wb]).1 := by
  refine ⟨by decide, by decide, by decide⟩

/-! ### send_to_socket

Oracle: the sequence of `write` results. Each delivery `(fd, ofs, n)`
records that `n` bytes of the frame, starting at offset `ofs`, were written
to socket handle `fd`. The result is the new registry, the delivery log,
and the handles passed to `close()`. -/

inductive WriteRes where
  | wb : WriteRes
  | errFatal : WriteRes
  | wrote (n : Nat) : WriteRes

def send_go (buflen : Nat) :
    Registry → Nat → Nat → List WriteRes → Registry × List (Nat × Nat × Nat) × List Nat
  | g, _, _, [] => (g, [], [])
  | g, i, ofs, w :: rest =>
    if i < g.use then
      match w with
      | .errFatal =>
        let c := close_client g i
        let r := send_go buflen c.1 i 0 rest
        (r.1, r.2.1, c.2 :: r.2.2)
      | .wb => send_go buflen g (i + 1) 0 rest
      | .wrote (n + 1) =>
        if ofs + (n + 1) < buflen then
          let r := send_go buflen g i (ofs + (n + 1)) rest
          (r.1, (readIdx g i, ofs, n + 1) :: r.2.1, r.2.2)
        else
          let r := send_go buflen g (i + 1) 0 rest
          (r.1, (readIdx g i, ofs, n + 1) :: r.2.1, r.2.2)
      | .wrote 0 => send_go buflen g (i + 1) 0 rest
    else (g, [], [])

def send_to_socket (g : Registry) (buflen : Nat) (oracle : List WriteRes) :
    Registry × List (Nat × Nat × Nat) × List Nat :=
  send_go buflen g 0 0 oracle

/-- Claim C5: registry `[5, 6, 7]`, frame of 2 bytes; the write to peer 5
fails with a real error, peers accept everything offered. The code closes
peer 5, but the corrupted shift leaves `[6, 6]`: the 2-byte frame is then
delivered to handle 6 twice — 4 bytes on a 2-byte frame, so peer 6's
stream is not a prefix of the frame — while peer 7 receives nothing and is
silently dropped, contradicting each-peer-receives-a-prefix. -/
theorem broadcast_after_removal_duplicates_frame :
    (send_to_socket (mkReg [5, 6, 7]) 2 [.errFatal, .wrote 2, .wrote 2]).2.1 =
      [(6, 0, 2), (6, 0, 2)] ∧
    (send_to_socket (mkReg [5, 6, 7]) 2 [.errFatal, .wrote 2, .wrote 2]).2.2 = [5] ∧
    regList (send_to_socket (mkReg [5, 6, 7]) 2 [.errFatal, .wrote 2, .wrote 2]).1 = [6, 6] := by
  refine ⟨by decide, by decide, by decide⟩

/-! ### The supervisor's device-list pass (start_usb2sock, lines 444-468)

`results` is the list of `start_with_a_device` return codes, one per
attached device, in enumeration order. The C initialises `r = 0`, scans
until a device does not report `VENDOR_ID_DJI` (the wrong-device sentinel),
then: `r == 0` breaks out of the outer loop (process exits with success);
a code other than `WAIT_FOR_HOTPLUG` / `VENDOR_ID_DJI` breaks (fatal);
otherwise it prints the prompt, sleeps 0.5 s and retries. -/

def scan_devices : List Int → Int
  | [] => 0
  | [d] => d
  | d :: rest => if d = VENDOR_ID_DJI then scan_devices rest else d

inductive SupStep where
  | exitSuccess : SupStep
  | exitFatal (r : Int) : SupStep
  | waitRetry : SupStep
deriving DecidableEq

def supervisor_step (results : List Int) : SupStep :=
  let r := scan_devices results
  if r = 0 then .exitSuccess
  else if r ≠ WAIT_FOR_HOTPLUG ∧ r ≠ VENDOR_ID_DJI then .exitFatal r
  else .waitRetry

/-- Claim C2: a discovery pass over a non-empty device list in which every
device is the wrong one retries as the claim says — but over an *empty*
device list `r` keeps its initialiser 0, `if (r == 0) break` fires, and
`start_usb2sock` returns 0: the process terminates with a success result
instead of waiting and retrying. -/
theorem empty_device_list_exits_success :
    supervisor_step [] = .exitSuccess ∧
    supervisor_step [VENDOR_ID_DJI] = .waitRetry ∧
    supervisor_step [VENDOR_ID_DJI, VENDOR_ID_DJI] = .waitRetry := by
  refine ⟨by decide, by decide, by decide⟩

/-! ### Handshake classification (start_stream, lines 205-222)

`r` is the `libusb_bulk_transfer` return code for the 4-byte magic packet
("RMVT", `sizeof - 1 = 4`), `success` the transferred byte count. -/

inductive HsOutcome where
  | proceed : HsOutcome
  | ret (code : Int) : HsOutcome
deriving DecidableEq

def classify_handshake (r : Int) (success : Nat) : HsOutcome :=
  if r = LIBUSB_ERROR_TIMEOUT ∧ success = 0 then .proceed
  else if r = LIBUSB_ERROR_IO then .ret WAIT_FOR_HOTPLUG
  else if r ≠ 0 then .ret r
  else if success ≠ 4 then .ret LIBUSB_ERROR_TIMEOUT
  else .proceed

/-- Claim C8: the handshake send has exactly the three classified abnormal
outcomes the claim lists — timeout with zero bytes proceeds into the
receive phase, a transport I/O error returns `WAIT_FOR_HOTPLUG`
(the restart sentinel), any other non-zero code is returned as is (fatal),
and a successful but short write returns `LIBUSB_ERROR_TIMEOUT` (fatal);
a full 4-byte write proceeds. -/
theorem handshake_classification (r : Int) (s : Nat) :
    (r = LIBUSB_ERROR_TIMEOUT ∧ s = 0 → classify_handshake r s = .proceed) ∧
    (r = LIBUSB_ERROR_IO → classify_handshake r s = .ret WAIT_FOR_HOTPLUG) ∧
    (r ≠ 0 → r ≠ LIBUSB_ERROR_IO → ¬(r = LIBUSB_ERROR_TIMEOUT ∧ s = 0) →
      classify_handshake r s = .ret r) ∧
    (r = 0 → s ≠ 4 → classify_handshake r s = .ret LIBUSB_ERROR_TIMEOUT) ∧
    (r = 0 → s = 4 → classify_handshake r s = .proceed) := by
  unfold classify_handshake
  refine ⟨?_, ?_, ?_, ?_, ?_⟩
  · rintro ⟨rfl, rfl⟩
    simp
  · rintro rfl
    simp [ LIBUSB_ERROR_IO, LIBUSB_ERROR_TIMEOUT, WAIT_FOR_HOTPLUG]
  · intro h0 hio hto
    rw [if_neg hto, if_neg hio, if_pos h0]
  · rintro rfl hs
    simp [LIBUSB_ERROR_TIMEOUT, LIBUSB_ERROR_IO, hs]
  · rintro rfl rfl
    simp [LIBUSB_ERROR_TIMEOUT, LIBUSB_ERROR_IO]

/-- Closed instance of `handshake_classification`: the timeout-with-zero-bytes
send proceeds, an I/O error restarts, a short full-status write is fatal. -/
theorem handshake_classification_witness :
    classify_handshake LIBUSB_ERROR_TIMEOUT 0 = .proceed ∧
    classify_handshake LIBUSB_ERROR_IO 2 = .ret WAIT_FOR_HOTPLUG ∧
    classify_handshake (-99) 4 = .ret (-99) ∧
    classify_handshake 0 3 = .ret LIBUSB_ERROR_TIMEOUT ∧
    classify_handshake 0 4 = .proceed :=
  ⟨(handshake_classification LIBUSB_ERROR_TIMEOUT 0).1 ⟨rfl, rfl⟩,
   (handshake_classification LIBUSB_ERROR_IO 2).2.1 rfl,
   (handshake_classification (-99) 4).2.2.1 (by decide) (by decide) (by decide),
   (handshake_classification 0 3).2.2.2.1 rfl (by decide),
   (handshake_classification 0 4).2.2.2.2 rfl rfl⟩

/-! ### Bulk-read classification and one streaming-loop step
(start_stream, lines 230-261)

`stream_step count g r success oracle` performs the read-classification
part of one loop iteration: it returns either `.inl` with the packet
counter and registry at the next iteration (the loop continues) or `.inr`
with the code returned to the supervisor, paired with the deliveries made
by `send_to_socket` during the iteration. On a zero-byte timeout the body
sets `count = 0`; the `for` increment then makes it 1. -/

inductive ReadOutcome where
  | noSignal : ReadOutcome
  | ret (code : Int) : ReadOutcome
  | broadcast (n : Nat) : ReadOutcome
deriving DecidableEq

def classify_read (r : Int) (success : Nat) : ReadOutcome :=
  if r = LIBUSB_ERROR_TIMEOUT ∧ success = 0 then .noSignal
  else if r = LIBUSB_ERROR_IO then .ret WAIT_FOR_HOTPLUG
  else if r = LIBUSB_ERROR_NO_DEVICE then .ret WAIT_FOR_HOTPLUG
  else if r = LIBUSB_ERROR_NOT_FOUND then .ret WAIT_FOR_HOTPLUG
  else if r ≠ 0 then .ret r
  else .broadcast success

def stream_step (count : Nat) (g : Registry) (r : Int) (success : Nat)
    (oracle : List WriteRes) : ((Nat × Registry) ⊕ Int) × List (Nat × Nat × Nat) :=
  match classify_read r success with
  | .noSignal => (.inl (1, g), [])
  | .ret code => (.inr code, [])
  | .broadcast n =>
    let s := send_to_socket g n oracle
    (.inl (count + 1, s.1), s.2.1)

/-- Claim C7: classification of every bulk-read outcome. A timeout with
zero bytes continues the loop with the packet counter reset and the
registry untouched (no peer removed) and broadcasts nothing; an I/O,
no-device or not-found error returns the restart sentinel
`WAIT_FOR_HOTPLUG`; any other non-zero code is returned as a fatal error;
success broadcasts the received bytes through `send_to_socket` and
continues with the counter advanced. -/
theorem bulk_read_classification (c : Nat) (g : Registry) (r : Int) (s : Nat)
    (w : List WriteRes) :
    (r = LIBUSB_ERROR_TIMEOUT ∧ s = 0 →
      stream_step c g r s w = (.inl (1, g), [])) ∧
    (r = LIBUSB_ERROR_IO ∨ r = LIBUSB_ERROR_NO_DEVICE ∨ r = LIBUSB_ERROR_NOT_FOUND →
      stream_step c g r s w = (.inr WAIT_FOR_HOTPLUG, [])) ∧
    (r ≠ 0 → ¬(r = LIBUSB_ERROR_TIMEOUT ∧ s = 0) → r ≠ LIBUSB_ERROR_IO →
      r ≠ LIBUSB_ERROR_NO_DEVICE → r ≠ LIBUSB_ERROR_NOT_FOUND →
      stream_step c g r s w = (.inr r, [])) ∧
    (r = 0 →
      stream_step c g r s w =
        (.inl (c + 1, (send_to_socket g s w).1), (send_to_socket g s w).2.1)) := by
  refine ⟨?_, ?_, ?_, ?_⟩
  · rintro ⟨rfl, rfl⟩
    simp [stream_step, classify_read]
  · rintro (rfl | rfl | rfl) <;>
      simp [stream_step, classify_read, LIBUSB_ERROR_IO, LIBUSB_ERROR_NO_DEVICE,
        LIBUSB_ERROR_NOT_FOUND, LIBUSB_ERROR_TIMEOUT]
  · intro h0 hto hio hnd hnf
    unfold stream_step classify_read
    rw [if_neg hto, if_neg hio, if_neg hnd, if_neg hnf, if_pos h0]
  · rintro rfl
    simp [stream_step, classify_read, LIBUSB_ERROR_IO, LIBUSB_ERROR_NO_DEVICE,
      LIBUSB_ERROR_NOT_FOUND, LIBUSB_ERROR_TIMEOUT]

/-- Closed instance of `bulk_read_classification` at concrete inputs:
a zero-byte timeout on registry `[5]` continues with the counter reset and
the registry intact; a no-device error restarts; an overflow error (-8) is
fatal; a 3-byte success broadcasts to the single registered peer. -/
theorem bulk_read_classification_witness :
    stream_step 41 (mkReg [5]) LIBUSB_ERROR_TIMEOUT 0 [] = (.inl (1, mkReg [5]), []) ∧
    stream_step 41 (mkReg [5]) LIBUSB_ERROR_NO_DEVICE 7 [] = (.inr WAIT_FOR_HOTPLUG, []) ∧
    stream_step 41 (mkReg [5]) (-8) 0 [] = (.inr (-8), []) ∧
    stream_step 41 (mkReg [5]) 0 3 [.wrote 3] =
      (.inl (42, (send_to_socket (mkReg [5]) 3 [.wrote 3]).1),
        (send_to_socket (mkReg [5]) 3 [.wrote 3]).2.1) :=
  ⟨(bulk_read_classification 41 (mkReg [5]) LIBUSB_ERROR_TIMEOUT 0 []).1 ⟨rfl, rfl⟩,
   (bulk_read_classification 41 (mkReg [5]) LIBUSB_ERROR_NO_DEVICE 7 []).2.1
     (Or.inr (Or.inl rfl)),
   (bulk_read_classification 41 (mkReg [5]) (-8) 0 []).2.2.1
     (by decide) (by decide) (by decide) (by decide) (by decide),
   (bulk_read_classification 41 (mkReg [5]) 0 3 [.wrote 3]).2.2.2 rfl⟩

/-- Claim C9: a bulk read that returns `LIBUSB_ERROR_TIMEOUT` with a
non-zero transfer count falls through every recoverable branch and is
returned as a fatal error — it is not the no-signal case, not the restart
sentinel, and the partially transferred bytes are never broadcast (the
delivery log of the step is empty). -/
theorem timeout_with_data_is_fatal (c : Nat) (g : Registry) (s : Nat)
    (w : List WriteRes) (h : 0 < s) :
    stream_step c g LIBUSB_ERROR_TIMEOUT s w = (.inr LIBUSB_ERROR_TIMEOUT, []) ∧
    LIBUSB_ERROR_TIMEOUT ≠ WAIT_FOR_HOTPLUG := by
  constructor
  · unfold stream_step classify_read
    rw [if_neg (by simp [Nat.pos_iff_ne_zero.mp h]), if_neg (by decide),
      if_neg (by decide), if_neg (by decide), if_pos (by decide)]
  · decide

/-- Closed instance of `timeout_with_data_is_fatal`: a timeout that moved
1 byte on registry `[5]` ends the loop fatally with nothing broadcast. -/
theorem timeout_with_data_is_fatal_witness :
    stream_step 3 (mkReg [5]) LIBUSB_ERROR_TIMEOUT 1 [.wrote 1] =
      (.inr LIBUSB_ERROR_TIMEOUT, []) ∧
    LIBUSB_ERROR_TIMEOUT ≠ WAIT_FOR_HOTPLUG :=
  timeout_with_data_is_fatal 3 (mkReg [5]) 1 [.wrote 1] (by decide)

/-! ### Device discovery (start_with_a_device, lines 266-377)

The configuration descriptor is modelled structurally; the remaining
libusb calls are oracle fields of `DevWorld`, in call order. `DevResult`
records the return code of `start_with_a_device`, the number of
`libusb_close(usbdev)` calls made on the opened handle, and the interface
number passed to `libusb_claim_interface` when that call is reached. -/

structure EndpointDesc where
  bEndpointAddress : Nat
deriving DecidableEq

structure AltSetting where
  bInterfaceClass : Nat
  bInterfaceSubClass : Nat
  endpoints : List EndpointDesc
deriving DecidableEq

structure Interface where
  altsettings : List AltSetting
deriving DecidableEq

structure ConfigDesc where
  interfaces : List Interface
deriving DecidableEq

/-- First endpoint whose address has the `LIBUSB_ENDPOINT_IN` bit (0x80)
set, or -1. -/
def firstInEndpoint : List EndpointDesc → Int
  | [] => -1
  | e :: rest =>
    if Nat.land e.bEndpointAddress 128 ≠ 0 then Int.ofNat e.bEndpointAddress
    else firstInEndpoint rest

/-- First endpoint whose address has the `LIBUSB_ENDPOINT_IN` bit clear,
or -1. -/
def firstOutEndpoint : List EndpointDesc → Int
  | [] => -1
  | e :: rest =>
    if Nat.land e.bEndpointAddress 128 = 0 then Int.ofNat e.bEndpointAddress
    else firstOutEndpoint rest

/-- The condition under which the scan records an interface: class 0xFF,
subclass 0x43, and both an IN and an OUT endpoint present (the `j == 0`
guard is handled by the scan itself). -/
def altMatch (alt : AltSetting) : Bool :=
  alt.bInterfaceClass == 0xff && alt.bInterfaceSubClass == 0x43 &&
    firstInEndpoint alt.endpoints != -1 && firstOutEndpoint alt.endpoints != -1

/-- Inner loop over the alternate settings of interface `i`, starting at
alternate index `j`, threading the `(find_FF_43, inEndpoint, outEndpoint)`
accumulator. Only alternate index 0 can update it, as in the source. -/
def scanAlts (i : Nat) : Nat → List AltSetting → Int × Int × Int → Int × Int × Int
  | _, [], acc => acc
  | j, alt :: rest, acc =>
    let acc' :=
      if j = 0 ∧ altMatch alt then
        (Int.ofNat i, firstInEndpoint alt.endpoints, firstOutEndpoint alt.endpoints)
      else acc
    scanAlts i (j + 1) rest acc'

/-- Outer loop over the interfaces, starting at interface index `i`. -/
def scanIfaces : Nat → List Interface → Int × Int × Int → Int × Int × Int
  | _, [], acc => acc
  | i, ifc :: rest, acc => scanIfaces (i + 1) rest (scanAlts i 0 ifc.altsettings acc)

/-- The interface/endpoint scan of lines 314-351: yields
`(find_FF_43, inEndpoint, outEndpoint)`, all initialised to -1. -/
def scan_config (c : ConfigDesc) : Int × Int × Int :=
  scanIfaces 0 c.interfaces (-1, -1, -1)

/-- Whether some interface's alternate setting 0 satisfies `altMatch`:
exactly the configurations in which the scan can record an interface. -/
def hasFF43 (c : ConfigDesc) : Bool :=
  c.interfaces.any fun ifc =>
    match ifc.altsettings with
    | [] => false
    | a :: _ => altMatch a

theorem scanAlts_succ (i j : Nat) (alts : List AltSetting) (acc : Int × Int × Int) :
    scanAlts i (j + 1) alts acc = acc := by
  induction alts generalizing j acc with
  | nil => rfl
  | cons a rest ih =>
    unfold scanAlts
    rw [if_neg (by simp)]
    exact ih (j + 1) acc

theorem scanAlts_zero_nomatch (i : Nat) (alts : List AltSetting)
    (acc : Int × Int × Int)
    (h : ∀ a, alts.head? = some a → altMatch a = false) :
    scanAlts i 0 alts acc = acc := by
  cases alts with
  | nil => rfl
  | cons a rest =>
    unfold scanAlts
    rw [if_neg (by simp [h a rfl])]
    exact scanAlts_succ i 0 rest acc

theorem scanIfaces_nomatch (ifcs : List Interface) (i : Nat)
    (acc : Int × Int × Int)
    (h : ∀ ifc ∈ ifcs, ∀ a, ifc.altsettings.head? = some a → altMatch a = false) :
    scanIfaces i ifcs acc = acc := by
  induction ifcs generalizing i with
  | nil => rfl
  | cons ifc rest ih =>
    unfold scanIfaces
    rw [scanAlts_zero_nomatch i ifc.altsettings acc (h ifc (by simp))]
    exact ih i.succ fun f hf => h f (List.mem_cons_of_mem ifc hf)

/-- When no interface's alternate setting 0 matches, the scan leaves all
three results at their initial value -1. -/
theorem scan_config_of_not_hasFF43 (c : ConfigDesc) (h : hasFF43 c = false) :
    scan_config c = (-1, -1, -1) := by
  apply scanIfaces_nomatch
  intro ifc hifc a ha
  have hh := (List.any_eq_false.mp h) ifc hifc
  cases halts : ifc.altsettings with
  | nil => rw [halts] at ha; cases ha
  | cons b rest =>
    rw [halts] at ha hh
    simp at ha
    simpa [ha] using hh

structure DevWorld where
  descResult : Int
  idVendor : Int
  idProduct : Int
  openResult : Int
  getCfg1Result : Int
  cfg1 : Int
  setCfgResult : Int
  cfgDescResult : Int
  cdesc : ConfigDesc
  claimResult : Int
  getCfg2Result : Int
  streamResult : Int
deriving DecidableEq

structure DevResult where
  ret : Int
  closes : Nat
  claimedIface : Option Int
deriving DecidableEq

/-- `start_with_a_device`, modelled path by path. `cfg` after the first
`libusb_get_configuration` is the reported value on success and the
initialiser -1 on failure (the failure only logs). On the
`libusb_set_configuration` and `libusb_get_config_descriptor` failure paths
the source returns without `libusb_close`, which is recorded as
`closes = 0`. -/
def start_with_a_device (w : DevWorld) : DevResult :=
  if w.descResult ≠ 0 then ⟨w.descResult, 0, none⟩
  else if ¬(w.idVendor = VENDOR_ID_DJI ∧ w.idProduct = DEVICE_ID_GOGGLES) then
    ⟨VENDOR_ID_DJI, 0, none⟩
  else if w.openResult ≠ 0 then ⟨WAIT_FOR_HOTPLUG, 0, none⟩
  else
    let cfg : Int := if w.getCfg1Result = 0 then w.cfg1 else -1
    if cfg = 0 ∧ w.setCfgResult ≠ 0 then ⟨w.setCfgResult, 0, none⟩
    else if w.cfgDescResult ≠ 0 then ⟨w.cfgDescResult, 0, none⟩
    else
      let scan := scan_config w.cdesc
      if w.claimResult ≠ 0 then ⟨w.claimResult, 1, some scan.1⟩
      else if w.getCfg2Result ≠ 0 then ⟨w.getCfg2Result, 1, some scan.1⟩
      else ⟨w.streamResult, 1, some scan.1⟩

/-- A world in which the matching device opens, reports configuration 0,
and `libusb_set_configuration` fails with `LIBUSB_ERROR_PIPE` (-9). -/
def leakWorld : DevWorld :=
  ⟨0, VENDOR_ID_DJI, DEVICE_ID_GOGGLES, 0, 0, 0, -9, 0, ⟨[]⟩, 0, 0, WAIT_FOR_HOTPLUG⟩

/-- Claim C4: when `libusb_set_configuration` fails after the device has
been opened, `start_with_a_device` returns the error with **zero**
`libusb_close` calls on the handle — the DeviceHandle is not closed before
control returns to the supervisor (the `libusb_get_config_descriptor`
failure path behaves the same way). -/
theorem set_configuration_failure_leaks_handle :
    leakWorld.openResult = 0 ∧
    start_with_a_device leakWorld = ⟨-9, 0, none⟩ := by
  refine ⟨by decide, by decide⟩

/-- Claim C10: a matched, opened, configured device whose configuration
descriptor contains no alternate-setting-0 interface of class 0xFF /
subclass 0x43 with both an IN and an OUT endpoint. The scan leaves
`find_FF_43 = -1`, so the code attempts `libusb_claim_interface(usbdev, -1)`;
when that claim fails (any negative code), the handle is closed exactly
once and the claim error is the returned result — not the wrong-device /
NotFound sentinel `VENDOR_ID_DJI` — and the supervisor classifies it as
fatal. -/
theorem missing_iface_claims_minus_one (w : DevWorld)
    (hdesc : w.descResult = 0) (hv : w.idVendor = VENDOR_ID_DJI)
    (hp : w.idProduct = DEVICE_ID_GOGGLES) (hopen : w.openResult = 0)
    (hg : w.getCfg1Result = 0) (hcfg : w.cfg1 ≠ 0) (hcd : w.cfgDescResult = 0)
    (hno : hasFF43 w.cdesc = false) (hclaim : w.claimResult < 0) :
    start_with_a_device w = ⟨w.claimResult, 1, some (-1)⟩ ∧
    w.claimResult ≠ VENDOR_ID_DJI ∧
    supervisor_step [w.claimResult] = .exitFatal w.claimResult := by
  have hc0 : w.claimResult ≠ 0 := by omega
  refine ⟨?_, by intro h; rw [h] at hclaim; exact absurd hclaim (by decide), ?_⟩
  · unfold start_with_a_device
    rw [if_neg (by simp [hdesc]), if_neg (by simp [hv, hp]), if_neg (by simp [hopen])]
    simp only [hg, if_pos rfl]
    rw [if_neg (by simp [hcfg]), if_neg (by simp [hcd]), if_pos hc0,
      scan_config_of_not_hasFF43 w.cdesc hno]
  · unfold supervisor_step scan_devices
    rw [if_neg hc0,
      if_pos ⟨by intro h; rw [h] at hclaim; exact absurd hclaim (by decide),
        by intro h; rw [h] at hclaim; exact absurd hclaim (by decide)⟩]

/-- A world exercising `missing_iface_claims_minus_one`: the only
interface has class 0xFF but subclass 0x42, so nothing matches, and the
claim of interface -1 fails with `LIBUSB_ERROR_NOT_FOUND`. -/
def noIfaceWorld : DevWorld :=
  ⟨0, VENDOR_ID_DJI, DEVICE_ID_GOGGLES, 0, 0, 1, 0, 0,
    ⟨[⟨[⟨0xff, 0x42, [⟨0x81⟩, ⟨0x01⟩]⟩]⟩]⟩, LIBUSB_ERROR_NOT_FOUND, 0,
    WAIT_FOR_HOTPLUG⟩

/-- Closed instance of `missing_iface_claims_minus_one` at `noIfaceWorld`. -/
theorem missing_iface_claims_minus_one_witness :
    start_with_a_device noIfaceWorld = ⟨LIBUSB_ERROR_NOT_FOUND, 1, some (-1)⟩ ∧
    LIBUSB_ERROR_NOT_FOUND ≠ VENDOR_ID_DJI ∧
    supervisor_step [LIBUSB_ERROR_NOT_FOUND] = .exitFatal LIBUSB_ERROR_NOT_FOUND :=
  missing_iface_claims_minus_one noIfaceWorld rfl rfl rfl rfl rfl (by decide)
    rfl (by decide) (by decide)
